import Mathlib

/-!
Verification development for the alert admission / delivery engine and the
reminder scheduling service of this repository.

The definitions below are a shallow embedding of `app/outbound_service.py`
and `app/reminder_service.py`: instants are natural numbers (seconds since
the epoch, UTC), SQLite tables and the in-memory dict store become explicit
association lists, and network delivery is an oracle parameter (one boolean
per transport attempt).  MD5 fingerprints are abstracted by the hashed
content string itself: the code only ever compares fingerprints for
equality, and equal contents give equal digests.
-/

/-- Generic association-list lookup (first binding wins), the model of both
SQLite primary-key lookup and Python dict access. -/
def alookup {κ α : Type} [DecidableEq κ] : List (κ × α) → κ → Option α
  | [], _ => Option.none
  | (k', v) :: rest, k => if k' = k then Option.some v else alookup rest k

/-- Generic association-list upsert (replace the first binding, else append),
the model of `INSERT OR REPLACE` and of Python dict assignment. -/
def aupdate {κ α : Type} [DecidableEq κ] : List (κ × α) → κ → α → List (κ × α)
  | [], k, v => [(k, v)]
  | (k', v') :: rest, k, v =>
      if k' = k then (k, v) :: rest else (k', v') :: aupdate rest k v

theorem alookup_aupdate_self {κ α : Type} [DecidableEq κ]
    (l : List (κ × α)) (k : κ) (v : α) :
    alookup (aupdate l k v) k = Option.some v := by
  induction l with
  | nil => simp [aupdate, alookup]
  | cons p rest ih =>
    obtain ⟨k', v'⟩ := p
    by_cases h : k' = k
    · simp [aupdate, alookup, h]
    · simp [aupdate, alookup, h, ih]

theorem alookup_aupdate_ne {κ α : Type} [DecidableEq κ]
    (l : List (κ × α)) (k j : κ) (v : α) (hne : j ≠ k) :
    alookup (aupdate l k v) j = alookup l j := by
  have hkj : ¬ k = j := fun h => hne h.symm
  induction l with
  | nil => simp [aupdate, alookup, hkj]
  | cons p rest ih =>
    obtain ⟨k', v'⟩ := p
    by_cases h : k' = k
    · subst h
      simp [aupdate, alookup, hkj]
    · by_cases h2 : k' = j
      · simp [aupdate, alookup, h, h2, hne]
      · simp [aupdate, alookup, h, h2, ih]

theorem aupdate_aupdate_same {κ α : Type} [DecidableEq κ]
    (l : List (κ × α)) (k : κ) (v : α) :
    aupdate (aupdate l k v) k v = aupdate l k v := by
  induction l with
  | nil => simp [aupdate]
  | cons p rest ih =>
    obtain ⟨k', v'⟩ := p
    by_cases h : k' = k
    · simp [aupdate, h]
    · simp [aupdate, h, ih]

theorem aupdate_of_alookup_eq {κ α : Type} [DecidableEq κ]
    (l : List (κ × α)) (k : κ) (v : α) (h : alookup l k = Option.some v) :
    aupdate l k v = l := by
  induction l with
  | nil => simp [alookup] at h
  | cons p rest ih =>
    obtain ⟨k', v'⟩ := p
    by_cases hk : k' = k
    · subst hk
      simp [alookup] at h
      simp [aupdate, h]
    · simp [alookup, hk] at h
      simp [aupdate, hk, ih h]

/-! ## Outbound alert service (`app/outbound_service.py`) -/

/-- `NotificationMethod` enum of the outbound service. -/
inductive NotifyMethod
  | sms
  | call
  | both
deriving DecidableEq

/-- `UserPreference` dataclass (the fields the admission logic reads). -/
structure UserPref where
  userId : String
  phoneNumber : String
  optedIn : Bool
  notifyMethod : NotifyMethod
  maxAlertsPerDay : Nat
  quietHoursStart : Option Nat
  quietHoursEnd : Option Nat
deriving DecidableEq

/-- `Alert` dataclass: an in-memory alert candidate.  `dataJson` stands for
`json.dumps(self.data, sort_keys=True)`, the sorted-key serialization of the
opaque source data. -/
structure Alert where
  alertId : String
  userId : String
  alertType : String
  title : String
  message : String
  dataJson : String
  createdAt : Nat
  sentAt : Option Nat
deriving DecidableEq

/-- `Alert.get_hash`: the dedup fingerprint.  The source takes the md5 of
this content string; we keep the content string itself (the code only tests
fingerprints for equality). -/
def Alert.getHash (a : Alert) : String :=
  a.userId ++ "_" ++ a.alertType ++ "_" ++ a.title ++ "_" ++ a.dataJson

/-- One row of the `alerts` SQLite table.  `createdAt` is filled by the
`CURRENT_TIMESTAMP` column default at insert time. -/
structure AlertRow where
  alertId : String
  userId : String
  alertType : String
  title : String
  message : String
  dataJson : String
  alertHash : String
  createdAt : Nat
  sentAt : Option Nat
deriving DecidableEq

/-- The persistent state managed by `DatabaseManager`: the
`user_preferences`, `alerts` and `daily_alert_counts` tables. -/
structure AlertsDb where
  prefs : List UserPref
  alerts : List AlertRow
  dailyCounts : List ((String × Nat) × Nat)
deriving DecidableEq

/-- The rolling dedup window: `datetime('now', '-6 hours')` in
`DatabaseManager.save_alert`, in seconds. -/
def dedupWindow : Nat := 6 * 3600

/-- The duplicate test of `save_alert`: is there a row with this fingerprint
whose creation time is within the last 6 hours?  (`created_at > now - 6h`
over the integers is rendered as `now < created_at + 6h` to stay in `Nat`.) -/
def isDup (db : AlertsDb) (now : Nat) (h : String) : Bool :=
  db.alerts.any (fun row => decide (row.alertHash = h ∧ now < row.createdAt + dedupWindow))

/-- The row inserted by `save_alert` (`created_at` defaults to now;
`sent_at` is whatever the in-memory alert carries at insert time). -/
def insertedRow (a : Alert) (now : Nat) : AlertRow :=
  { alertId := a.alertId, userId := a.userId, alertType := a.alertType,
    title := a.title, message := a.message, dataJson := a.dataJson,
    alertHash := a.getHash, createdAt := now, sentAt := a.sentAt }

/-- `DatabaseManager.save_alert`: reject (returning `false`) when a
same-fingerprint row exists within the dedup window, otherwise insert the
alert row and return `true`. -/
def saveAlert (db : AlertsDb) (a : Alert) (now : Nat) : AlertsDb × Bool :=
  if isDup db now a.getHash then (db, false)
  else ({ db with alerts := insertedRow a now :: db.alerts }, true)

/-- `DatabaseManager.get_daily_alert_count` (0 when no row exists). -/
def getDailyCount (db : AlertsDb) (uid : String) (date : Nat) : Nat :=
  (alookup db.dailyCounts (uid, date)).getD 0

/-- `DatabaseManager.increment_daily_count`: `INSERT OR IGNORE` a zero row,
then `count = count + 1`. -/
def incrementDailyCount (db : AlertsDb) (uid : String) (date : Nat) : AlertsDb :=
  { db with dailyCounts := aupdate db.dailyCounts (uid, date) (getDailyCount db uid date + 1) }

/-- `DatabaseManager.get_user_preferences`: `WHERE opted_in = 1` — only
opted-in recipients are ever returned to the polling cycle. -/
def getUserPreferences (db : AlertsDb) : List UserPref :=
  db.prefs.filter (fun p => p.optedIn)

/-- The overall success of the transport attempts in `_send_alert`:
SMS for `sms`, call for `call`, `success or call_success` for `both`. -/
def deliverySucceeds (m : NotifyMethod) (smsOk callOk : Bool) : Bool :=
  match m with
  | NotifyMethod.sms => smsOk
  | NotifyMethod.call => callOk
  | NotifyMethod.both => smsOk || callOk

/-- Seconds per day; `now / day` models the `%Y-%m-%d` local-date key
derived from `datetime.utcnow()`. -/
def day : Nat := 86400

/-- Outcome of `OutboundAlertService._send_alert` for one candidate. -/
inductive SendOutcome
  | duplicate
  | rateLimited
  | delivered
  | deliveryFailed
deriving DecidableEq

/-- `OutboundAlertService._send_alert`: dedup-check-and-insert first, then
the daily-limit re-check, then the transport attempt; on success the
in-memory alert object gets `sent_at = now` and the daily counter is
incremented.  Returns the new store, the (possibly updated) in-memory alert
object, and the outcome.  Note that the stored row keeps the `sent_at` it
had at insert time: the source never writes the delivery time back to the
`alerts` table. -/
def sendAlert (db : AlertsDb) (pref : UserPref) (a : Alert) (now : Nat)
    (smsOk callOk : Bool) : AlertsDb × Alert × SendOutcome :=
  match saveAlert db a now with
  | (db1, false) => (db1, a, SendOutcome.duplicate)
  | (db1, true) =>
    if pref.maxAlertsPerDay ≤ getDailyCount db1 pref.userId (now / day) then
      (db1, a, SendOutcome.rateLimited)
    else if deliverySucceeds pref.notifyMethod smsOk callOk then
      (incrementDailyCount db1 pref.userId (now / day),
        { a with sentAt := Option.some now }, SendOutcome.delivered)
    else
      (db1, a, SendOutcome.deliveryFailed)

/-- The candidate loop inside `_process_user_alerts`: each candidate comes
with its delivery-oracle pair. -/
def sendAlertList (db : AlertsDb) (pref : UserPref) (now : Nat) :
    List (Alert × Bool × Bool) → AlertsDb
  | [] => db
  | (a, smsOk, callOk) :: rest =>
      sendAlertList (sendAlert db pref a now smsOk callOk).1 pref now rest

/-- `OutboundAlertService._process_user_alerts`: return immediately when
today's counter has reached the recipient's limit, otherwise process the
cycle's candidates. -/
def processUserAlerts (db : AlertsDb) (pref : UserPref) (now : Nat)
    (cands : List (Alert × Bool × Bool)) : AlertsDb :=
  if pref.maxAlertsPerDay ≤ getDailyCount db pref.userId (now / day) then db
  else sendAlertList db pref now cands

/-- `OutboundAlertService._is_quiet_hours`: times are minutes of the local
day; `none` for either bound means no quiet hours. -/
def isQuietHours (qs qe : Option Nat) (now : Nat) : Bool :=
  match qs, qe with
  | Option.some s, Option.some e =>
      if s ≤ e then decide (s ≤ now ∧ now ≤ e)
      else decide (now ≥ s ∨ now ≤ e)
  | _, _ => false

/-! ## Reminder service (`app/reminder_service.py`) -/

/-- `ReminderStatus` enum. -/
inductive ReminderStatus
  | pending
  | sent
  | failed
  | cancelled
deriving DecidableEq

/-- `RecurrenceType` enum. -/
inductive RecurrenceType
  | none
  | daily
  | weekly
  | monthly
deriving DecidableEq

/-- `User` dataclass. -/
structure User where
  userId : String
  phoneNumber : String
  timezone : String
  optOut : Bool
  createdAt : Nat
deriving DecidableEq

/-- `Reminder` dataclass. -/
structure Reminder where
  reminderId : String
  userId : String
  message : String
  scheduledTime : Nat
  status : ReminderStatus
  recurrence : RecurrenceType
  createdAt : Nat
  sentAt : Option Nat
  nextOccurrence : Option Nat
deriving DecidableEq

/-- `Reminder._calculate_next_occurrence`: `timedelta(days=1)`,
`timedelta(weeks=1)` and `timedelta(days=30)` added to the target, `None`
for non-recurring reminders. -/
def Reminder.calculateNextOccurrence (r : Reminder) : Option Nat :=
  if r.recurrence = RecurrenceType.daily then Option.some (r.scheduledTime + day)
  else if r.recurrence = RecurrenceType.weekly then Option.some (r.scheduledTime + 7 * day)
  else if r.recurrence = RecurrenceType.monthly then Option.some (r.scheduledTime + 30 * day)
  else Option.none

/-- Constructing a `Reminder` the way the service does (status defaults to
pending, `sent_at` to null) followed by `__post_init__`, which fills
`next_occurrence` for recurring reminders. -/
def mkReminder (id uid msg : String) (sched : Nat) (rec : RecurrenceType)
    (createdAt : Nat) : Reminder :=
  let base : Reminder :=
    { reminderId := id, userId := uid, message := msg, scheduledTime := sched,
      status := ReminderStatus.pending, recurrence := rec,
      createdAt := createdAt, sentAt := Option.none, nextOccurrence := Option.none }
  if rec ≠ RecurrenceType.none then
    { base with nextOccurrence := base.calculateNextOccurrence }
  else base

/-- `MockMemoryStore`: the users and reminders dicts, keyed by id. -/
structure Store where
  users : List (String × User)
  reminders : List (String × Reminder)
deriving DecidableEq

/-- `MockMemoryStore.get_pending_reminders`: every stored reminder with
status pending whose scheduled time has passed. -/
def getPendingReminders (s : Store) (now : Nat) : List Reminder :=
  (s.reminders.map Prod.snd).filter
    (fun r => decide (r.status = ReminderStatus.pending ∧ r.scheduledTime ≤ now))

/-- A reminder with its status overwritten to cancelled, as written by
`cancel_reminder` and by the opt-out branch of `send_reminder`. -/
def cancelledVersion (r : Reminder) : Reminder :=
  { r with status := ReminderStatus.cancelled }

/-- `ReminderService.cancel_reminder`: look the reminder up; when present,
set its status to cancelled and save it; unknown ids are ignored. -/
def cancelReminder (s : Store) (id : String) : Store :=
  match alookup s.reminders id with
  | Option.none => s
  | Option.some r =>
      { s with reminders := aupdate s.reminders id (cancelledVersion r) }

/-- `ReminderService.opt_in_user`: clear the user's opt-out flag when the
user exists. -/
def optInUser (s : Store) (uid : String) : Store :=
  match alookup s.users uid with
  | Option.none => s
  | Option.some u => { s with users := aupdate s.users uid { u with optOut := false } }

/-- `ReminderService.opt_out_user`: set the user's opt-out flag when the
user exists. -/
def optOutUser (s : Store) (uid : String) : Store :=
  match alookup s.users uid with
  | Option.none => s
  | Option.some u => { s with users := aupdate s.users uid { u with optOut := true } }

/-- The id of the follow-up reminder created after a successful recurring
delivery: `f"{reminder.reminder_id}_{int(time.time())}"`. -/
def derivedId (r : Reminder) (now : Nat) : String :=
  r.reminderId ++ "_" ++ toString now

/-- The original reminder as updated after a successful delivery. -/
def sentVersion (r : Reminder) (now : Nat) : Reminder :=
  { r with status := ReminderStatus.sent, sentAt := Option.some now }

/-- `ReminderService.send_reminder`.  `waOk`/`smsOk` are the delivery
oracle: the outcomes the WhatsApp attempt and the SMS fallback would have.
An unknown recipient returns failure without touching the store; an
opted-out recipient gets the reminder cancelled and saved; otherwise the
message is delivered (WhatsApp, falling back to SMS), and on success the
reminder is marked sent (creating the follow-up reminder first when it
recurs — the source passes `reminder.next_occurrence` as the new target,
which is never null for recurring reminders built by the constructor; the
model reads it with a default of 0), on failure marked failed. -/
def sendReminder (s : Store) (r : Reminder) (now : Nat) (waOk smsOk : Bool) :
    Store × Bool :=
  match alookup s.users r.userId with
  | Option.none => (s, false)
  | Option.some u =>
    if u.optOut then
      ({ s with reminders := aupdate s.reminders r.reminderId (cancelledVersion r) }, false)
    else if waOk || smsOk then
      let s1 :=
        if r.recurrence ≠ RecurrenceType.none then
          let nextR := mkReminder (derivedId r now) r.userId r.message
              (r.nextOccurrence.getD 0) r.recurrence now
          { s with reminders := aupdate s.reminders nextR.reminderId nextR }
        else s
      ({ s1 with reminders := aupdate s1.reminders r.reminderId (sentVersion r now) }, true)
    else
      ({ s with reminders := aupdate s.reminders r.reminderId { r with status := ReminderStatus.failed } }, false)

/-- One admission step of a cycle (`process_pending_reminders` invoking
`send_reminder` on a due pending reminder present in the store), under the
id-freshness regime: the timestamp-derived follow-up id is not already a
key of the store. -/
inductive CycleStep : Store → Store → Prop
  | send (s : Store) (r : Reminder) (now : Nat) (waOk smsOk : Bool)
      (hpend : r.status = ReminderStatus.pending)
      (hdue : r.scheduledTime ≤ now)
      (hmem : alookup s.reminders r.reminderId = Option.some r)
      (hfresh : alookup s.reminders (derivedId r now) = Option.none) :
      CycleStep s (sendReminder s r now waOk smsOk).1

/-! ## Helper lemmas about the outbound admission pipeline -/

theorem saveAlert_of_dup (db : AlertsDb) (a : Alert) (now : Nat)
    (h : isDup db now a.getHash = true) : saveAlert db a now = (db, false) := by
  simp [saveAlert, h]

theorem saveAlert_of_fresh (db : AlertsDb) (a : Alert) (now : Nat)
    (h : isDup db now a.getHash = false) :
    saveAlert db a now = ({ db with alerts := insertedRow a now :: db.alerts }, true) := by
  simp [saveAlert, h]

theorem sendAlert_of_dup (db : AlertsDb) (pref : UserPref) (a : Alert) (now : Nat)
    (b1 b2 : Bool) (h : isDup db now a.getHash = true) :
    sendAlert db pref a now b1 b2 = (db, a, SendOutcome.duplicate) := by
  simp [sendAlert, saveAlert_of_dup db a now h]

theorem sendAlert_rateLimited_eq (db : AlertsDb) (pref : UserPref) (a : Alert)
    (now : Nat) (b1 b2 : Bool)
    (hd : isDup db now a.getHash = false)
    (hcnt : pref.maxAlertsPerDay ≤ getDailyCount db pref.userId (now / day)) :
    sendAlert db pref a now b1 b2 =
      ({ db with alerts := insertedRow a now :: db.alerts }, a, SendOutcome.rateLimited) := by
  have hc1 : pref.maxAlertsPerDay ≤
      getDailyCount { db with alerts := insertedRow a now :: db.alerts } pref.userId (now / day) := hcnt
  simp [sendAlert, saveAlert_of_fresh db a now hd, hc1]

theorem sendAlert_alerts_of_fresh (db : AlertsDb) (pref : UserPref) (a : Alert)
    (now : Nat) (b1 b2 : Bool) (h : isDup db now a.getHash = false) :
    (sendAlert db pref a now b1 b2).1.alerts = insertedRow a now :: db.alerts := by
  simp only [sendAlert, saveAlert_of_fresh db a now h]
  split
  · rfl
  · split
    · rfl
    · rfl

/-- C1: two candidates with the same fingerprint, the second admitted within
the 6-hour dedup window of the first, are never both delivered: whenever the
first was not itself rejected as a duplicate, the second is rejected by the
fingerprint check and its `sent_at` stays null. -/
theorem dedup_at_most_one (db : AlertsDb) (pref1 pref2 : UserPref) (a1 a2 : Alert)
    (now1 now2 : Nat) (b1 b2 b3 b4 : Bool)
    (hk : a1.getHash = a2.getHash)
    (h1 : a1.sentAt = Option.none) (h2 : a2.sentAt = Option.none)
    (hord : now1 ≤ now2) (hwin : now2 < now1 + dedupWindow) :
    ¬ ((sendAlert db pref1 a1 now1 b1 b2).2.1.sentAt.isSome = true ∧
        (sendAlert (sendAlert db pref1 a1 now1 b1 b2).1 pref2 a2 now2 b3 b4).2.1.sentAt.isSome = true) ∧
    (isDup db now1 a1.getHash = false →
      (sendAlert (sendAlert db pref1 a1 now1 b1 b2).1 pref2 a2 now2 b3 b4).2.2 = SendOutcome.duplicate ∧
      (sendAlert (sendAlert db pref1 a1 now1 b1 b2).1 pref2 a2 now2 b3 b4).2.1.sentAt = Option.none) := by
  by_cases hd : isDup db now1 a1.getHash = true
  · rw [sendAlert_of_dup db pref1 a1 now1 b1 b2 hd]
    constructor
    · intro hboth
      have := hboth.1
      simp [h1] at this
    · intro hfresh
      rw [hfresh] at hd
      cases hd
  · have hdf : isDup db now1 a1.getHash = false := by
      cases hval : isDup db now1 a1.getHash
      · rfl
      · exact absurd hval hd
    have halerts := sendAlert_alerts_of_fresh db pref1 a1 now1 b1 b2 hdf
    have hdup2 : isDup (sendAlert db pref1 a1 now1 b1 b2).1 now2 a2.getHash = true := by
      simp [isDup, halerts, insertedRow, hk, hwin]
    rw [sendAlert_of_dup _ pref2 a2 now2 b3 b4 hdup2]
    constructor
    · intro hboth
      have := hboth.2
      simp [h2] at this
    · intro _
      exact ⟨rfl, h2⟩

def c1Pref : UserPref :=
  { userId := "u1", phoneNumber := "p", optedIn := true,
    notifyMethod := NotifyMethod.sms, maxAlertsPerDay := 5,
    quietHoursStart := Option.none, quietHoursEnd := Option.none }

def c1Alert1 : Alert :=
  { alertId := "a1", userId := "u1", alertType := "price_drop", title := "T",
    message := "M1", dataJson := "d", createdAt := 100, sentAt := Option.none }

def c1Alert2 : Alert :=
  { alertId := "a2", userId := "u1", alertType := "price_drop", title := "T",
    message := "M2", dataJson := "d", createdAt := 200, sentAt := Option.none }

def c1Db : AlertsDb := { prefs := [c1Pref], alerts := [], dailyCounts := [] }

/-- Witness for C1 at a concrete pair of identical candidates one hour
apart: the first is delivered, the second rejected as a duplicate. -/
theorem dedup_at_most_one_witness :
    ¬ ((sendAlert c1Db c1Pref c1Alert1 100 true false).2.1.sentAt.isSome = true ∧
        (sendAlert (sendAlert c1Db c1Pref c1Alert1 100 true false).1 c1Pref c1Alert2 3700 true false).2.1.sentAt.isSome = true) ∧
    (sendAlert (sendAlert c1Db c1Pref c1Alert1 100 true false).1 c1Pref c1Alert2 3700 true false).2.2 = SendOutcome.duplicate := by
  have h := dedup_at_most_one c1Db c1Pref c1Pref c1Alert1 c1Alert2 100 3700
    true false true false (by decide) (by decide) (by decide) (by decide) (by decide)
  exact ⟨h.1, (h.2 (by decide)).1⟩

/-- C2: once the recipient's counter for today has reached
`max_alerts_per_day`, a further candidate is not delivered and the counter
stays put — the outcome is `rateLimited` whenever the fingerprint is fresh
(a stale fingerprint is rejected as a duplicate instead), the result does
not depend on the delivery channel, and the per-user processing entry point
returns without touching the store at all. -/
theorem rate_limit_rejects (db : AlertsDb) (pref : UserPref) (a : Alert) (now : Nat)
    (b1 b2 b3 b4 : Bool) (cands : List (Alert × Bool × Bool))
    (hcnt : pref.maxAlertsPerDay ≤ getDailyCount db pref.userId (now / day)) :
    ((sendAlert db pref a now b1 b2).2.2 = SendOutcome.duplicate ∨
      (sendAlert db pref a now b1 b2).2.2 = SendOutcome.rateLimited) ∧
    (isDup db now a.getHash = false →
      (sendAlert db pref a now b1 b2).2.2 = SendOutcome.rateLimited) ∧
    (sendAlert db pref a now b1 b2).2.1.sentAt = a.sentAt ∧
    getDailyCount (sendAlert db pref a now b1 b2).1 pref.userId (now / day)
      = getDailyCount db pref.userId (now / day) ∧
    sendAlert db pref a now b1 b2 = sendAlert db pref a now b3 b4 ∧
    processUserAlerts db pref now cands = db := by
  by_cases hd : isDup db now a.getHash = true
  · rw [sendAlert_of_dup db pref a now b1 b2 hd, sendAlert_of_dup db pref a now b3 b4 hd]
    refine ⟨Or.inl rfl, ?_, rfl, rfl, rfl, ?_⟩
    · intro hfresh
      rw [hfresh] at hd
      cases hd
    · simp [processUserAlerts, hcnt]
  · have hdf : isDup db now a.getHash = false := by
      cases hval : isDup db now a.getHash
      · rfl
      · exact absurd hval hd
    rw [sendAlert_rateLimited_eq db pref a now b1 b2 hdf hcnt,
      sendAlert_rateLimited_eq db pref a now b3 b4 hdf hcnt]
    refine ⟨Or.inr rfl, fun _ => rfl, rfl, rfl, rfl, ?_⟩
    simp [processUserAlerts, hcnt]

def c2Pref : UserPref :=
  { userId := "u2", phoneNumber := "p", optedIn := true,
    notifyMethod := NotifyMethod.sms, maxAlertsPerDay := 1,
    quietHoursStart := Option.none, quietHoursEnd := Option.none }

def c2Alert : Alert :=
  { alertId := "b1", userId := "u2", alertType := "job_match", title := "J",
    message := "M", dataJson := "d", createdAt := 100, sentAt := Option.none }

def c2Db : AlertsDb :=
  { prefs := [c2Pref], alerts := [], dailyCounts := [(("u2", 0), 1)] }

/-- Witness for C2 at a concrete recipient whose counter already equals the
limit: a fresh candidate comes back `rateLimited`, with the counter
unchanged. -/
theorem rate_limit_rejects_witness :
    (sendAlert c2Db c2Pref c2Alert 100 true false).2.2 = SendOutcome.rateLimited ∧
    getDailyCount (sendAlert c2Db c2Pref c2Alert 100 true false).1 "u2" (100 / day)
      = getDailyCount c2Db "u2" (100 / day) ∧
    processUserAlerts c2Db c2Pref 100 [(c2Alert, true, false)] = c2Db := by
  have h := rate_limit_rejects c2Db c2Pref c2Alert 100 true false true false
    [(c2Alert, true, false)] (by decide)
  exact ⟨h.2.1 (by decide), h.2.2.2.1, h.2.2.2.2.2⟩

/-- C4: classification of quiet hours.  For a window with start ≤ end, now
is quiet exactly when start ≤ now ≤ end; for a midnight-spanning window
(start > end), now is quiet exactly when now ≥ start or now ≤ end, and both
boundaries are classified quiet. -/
theorem quiet_hours_classification (s e n : Nat) :
    (s ≤ e → (isQuietHours (Option.some s) (Option.some e) n = true ↔ s ≤ n ∧ n ≤ e)) ∧
    (e < s →
      ((isQuietHours (Option.some s) (Option.some e) n = true ↔ n ≥ s ∨ n ≤ e) ∧
        isQuietHours (Option.some s) (Option.some e) s = true ∧
        isQuietHours (Option.some s) (Option.some e) e = true)) := by
  constructor
  · intro h
    simp [isQuietHours, h]
  · intro h
    have h' : ¬ s ≤ e := Nat.not_le.mpr h
    refine ⟨?_, ?_, ?_⟩
    · simp [isQuietHours, h']
    · simp [isQuietHours, h']
    · simp [isQuietHours, h']

/-- Witness for C4: the repository's own example window 23:00–07:00 (in
minutes: 1380–420), with 23:30 quiet, noon not quiet, and both boundaries
quiet. -/
theorem quiet_hours_classification_witness :
    isQuietHours (Option.some 1380) (Option.some 420) 1410 = true ∧
    isQuietHours (Option.some 1380) (Option.some 420) 720 = false ∧
    isQuietHours (Option.some 1380) (Option.some 420) 1380 = true ∧
    isQuietHours (Option.some 1380) (Option.some 420) 420 = true := by
  have h1410 := ((quiet_hours_classification 1380 420 1410).2 (by decide)).1
  have h720 := ((quiet_hours_classification 1380 420 720).2 (by decide)).1
  have hb := (quiet_hours_classification 1380 420 0).2 (by decide)
  refine ⟨h1410.mpr (by decide), ?_, hb.2.1, hb.2.2⟩
  cases hval : isQuietHours (Option.some 1380) (Option.some 420) 720
  · rfl
  · have := h720.mp hval
    simp at this

def c5Pref : UserPref :=
  { userId := "u5", phoneNumber := "p", optedIn := true,
    notifyMethod := NotifyMethod.sms, maxAlertsPerDay := 5,
    quietHoursStart := Option.none, quietHoursEnd := Option.none }

def c5Alert : Alert :=
  { alertId := "e1", userId := "u5", alertType := "price_drop", title := "T",
    message := "M", dataJson := "d", createdAt := 1000, sentAt := Option.none }

def c5Db : AlertsDb := { prefs := [c5Pref], alerts := [], dailyCounts := [] }

/-- C5 (code bug): a fresh candidate whose delivery succeeds.  The alert row
is persisted before the attempt and the daily counter is incremented by
exactly one, and the in-memory alert object gets `sent_at = now` — but the
persisted row's `sent_at` stays null: `_send_alert` never writes the
delivery time back to the `alerts` table, so the store's `sent_at` column
is null for every delivered alert. -/
theorem sent_at_not_persisted_bug :
    (sendAlert c5Db c5Pref c5Alert 1000 true false).2.2 = SendOutcome.delivered ∧
    (sendAlert c5Db c5Pref c5Alert 1000 true false).2.1.sentAt = Option.some 1000 ∧
    getDailyCount (sendAlert c5Db c5Pref c5Alert 1000 true false).1 "u5" (1000 / day) = 1 ∧
    (sendAlert c5Db c5Pref c5Alert 1000 true false).1.alerts = [insertedRow c5Alert 1000] ∧
    (insertedRow c5Alert 1000).sentAt = Option.none := by
  refine ⟨by decide, by decide, by decide, by decide, rfl⟩

/-! ## Helper lemmas about the reminder service -/

theorem mkReminder_reminderId (id uid msg : String) (sched : Nat)
    (rec : RecurrenceType) (c : Nat) :
    (mkReminder id uid msg sched rec c).reminderId = id := by
  by_cases h : rec ≠ RecurrenceType.none <;> simp [mkReminder, h]

theorem mkReminder_userId (id uid msg : String) (sched : Nat)
    (rec : RecurrenceType) (c : Nat) :
    (mkReminder id uid msg sched rec c).userId = uid := by
  by_cases h : rec ≠ RecurrenceType.none <;> simp [mkReminder, h]

theorem mkReminder_message (id uid msg : String) (sched : Nat)
    (rec : RecurrenceType) (c : Nat) :
    (mkReminder id uid msg sched rec c).message = msg := by
  by_cases h : rec ≠ RecurrenceType.none <;> simp [mkReminder, h]

theorem mkReminder_scheduledTime (id uid msg : String) (sched : Nat)
    (rec : RecurrenceType) (c : Nat) :
    (mkReminder id uid msg sched rec c).scheduledTime = sched := by
  by_cases h : rec ≠ RecurrenceType.none <;> simp [mkReminder, h]

theorem mkReminder_recurrence (id uid msg : String) (sched : Nat)
    (rec : RecurrenceType) (c : Nat) :
    (mkReminder id uid msg sched rec c).recurrence = rec := by
  by_cases h : rec ≠ RecurrenceType.none <;> simp [mkReminder, h]

theorem mkReminder_status (id uid msg : String) (sched : Nat)
    (rec : RecurrenceType) (c : Nat) :
    (mkReminder id uid msg sched rec c).status = ReminderStatus.pending := by
  by_cases h : rec ≠ RecurrenceType.none <;> simp [mkReminder, h]

theorem derivedId_ne (r : Reminder) (now : Nat) : derivedId r now ≠ r.reminderId := by
  intro h
  have hlen := congrArg String.length h
  rw [derivedId, String.length_append, String.length_append] at hlen
  have h1 : ("_" : String).length = 1 := rfl
  rw [h1] at hlen
  omega

theorem status_of_mem_pending (s : Store) (now : Nat) (r : Reminder)
    (h : r ∈ getPendingReminders s now) : r.status = ReminderStatus.pending := by
  simp only [getPendingReminders, List.mem_filter, decide_eq_true_eq] at h
  exact h.2.1

theorem not_mem_pending_of_status (s : Store) (now : Nat) (r : Reminder)
    (h : r.status ≠ ReminderStatus.pending) : r ∉ getPendingReminders s now :=
  fun hmem => h (status_of_mem_pending s now r hmem)

/-- The follow-up reminder created by `send_reminder` after delivering a
recurring reminder. -/
def recurringNext (r : Reminder) (now : Nat) : Reminder :=
  mkReminder (derivedId r now) r.userId r.message (r.nextOccurrence.getD 0) r.recurrence now

/-- The store produced by a successful delivery of a recurring reminder:
the follow-up reminder is saved first, then the original is saved back
marked sent. -/
def recurringStore (s : Store) (r : Reminder) (now : Nat) : Store :=
  { s with reminders :=
      aupdate (aupdate s.reminders (derivedId r now) (recurringNext r now)) r.reminderId (sentVersion r now) }

theorem sendReminder_success_recurring (s : Store) (r : Reminder) (u : User)
    (now : Nat) (waOk smsOk : Bool)
    (hu : alookup s.users r.userId = Option.some u)
    (ho : u.optOut = false)
    (hs : (waOk || smsOk) = true)
    (hrec : r.recurrence ≠ RecurrenceType.none) :
    sendReminder s r now waOk smsOk = (recurringStore s r now, true) := by
  simp [sendReminder, recurringStore, recurringNext, hu, ho, hs, hrec, mkReminder_reminderId]

/-- A `send_reminder` invocation leaves every reminder other than the
processed one and its timestamp-derived follow-up untouched. -/
theorem sendReminder_preserves_other (s : Store) (r : Reminder) (now : Nat)
    (waOk smsOk : Bool) (i : String)
    (hne1 : r.reminderId ≠ i)
    (hne2 : derivedId r now ≠ i) :
    alookup (sendReminder s r now waOk smsOk).1.reminders i = alookup s.reminders i := by
  have hi1 : i ≠ r.reminderId := Ne.symm hne1
  have hi2 : i ≠ derivedId r now := Ne.symm hne2
  cases hu : alookup s.users r.userId with
  | none => simp [sendReminder, hu]
  | some u =>
    by_cases ho : u.optOut
    · simp [sendReminder, hu, ho, alookup_aupdate_ne _ _ _ _ hi1]
    · have ho' : u.optOut = false := by
        cases hvo : u.optOut
        · rfl
        · exact absurd hvo ho
      by_cases hsucc : (waOk || smsOk) = true
      · by_cases hrec : r.recurrence ≠ RecurrenceType.none
        · rw [sendReminder_success_recurring s r u now waOk smsOk hu ho' hsucc hrec]
          simp [recurringStore, alookup_aupdate_ne _ _ _ _ hi1, alookup_aupdate_ne _ _ _ _ hi2]
        · simp [sendReminder, hu, ho, hsucc, hrec,
            alookup_aupdate_ne _ _ _ _ hi1]
      · simp [sendReminder, hu, ho, hsucc,
          alookup_aupdate_ne _ _ _ _ hi1]

/-- A cycle step can only touch the processed pending reminder and its
fresh follow-up id, so any stored reminder that is not pending survives the
step unchanged. -/
theorem alookup_preserved_cycleStep (s s' : Store) (i : String) (rem : Reminder)
    (hl : alookup s.reminders i = Option.some rem)
    (hst : rem.status ≠ ReminderStatus.pending)
    (h : CycleStep s s') :
    alookup s'.reminders i = Option.some rem := by
  cases h with
  | send r now waOk smsOk hpend hdue hmem hfresh =>
    have hne1 : r.reminderId ≠ i := by
      intro he
      rw [he, hl] at hmem
      have : rem = r := Option.some.inj hmem
      rw [this] at hst
      exact hst hpend
    have hne2 : derivedId r now ≠ i := by
      intro he
      rw [he, hl] at hfresh
      exact Option.noConfusion hfresh
    rw [sendReminder_preserves_other s r now waOk smsOk i hne1 hne2]
    exact hl

/-- Iterated version of the step-preservation lemma over any number of
cycle steps. -/
theorem alookup_preserved_cycleSteps (s s' : Store) (i : String) (rem : Reminder)
    (hl : alookup s.reminders i = Option.some rem)
    (hst : rem.status ≠ ReminderStatus.pending)
    (h : Relation.ReflTransGen CycleStep s s') :
    alookup s'.reminders i = Option.some rem := by
  induction h with
  | refl => exact hl
  | tail _ hstep ih => exact alookup_preserved_cycleStep _ _ i rem ih hst hstep

/-- `opt_in_user` only rewrites the users dict; reminders are untouched. -/
theorem optInUser_reminders (s : Store) (uid : String) :
    (optInUser s uid).reminders = s.reminders := by
  cases h : alookup s.users uid <;> simp [optInUser, h]

/-- The store written by `send_reminder` for an opted-out recipient: the
reminder is cancelled and saved. -/
theorem sendReminder_optOut (s : Store) (r : Reminder) (u : User) (now : Nat)
    (b1 b2 : Bool)
    (hu : alookup s.users r.userId = Option.some u)
    (ho : u.optOut = true) :
    sendReminder s r now b1 b2 =
      ({ s with reminders := aupdate s.reminders r.reminderId (cancelledVersion r) }, false) := by
  simp [sendReminder, hu, ho]

/-- C3: opted-out recipients are rejected outright.  The outbound polling
cycle never even sees them (`get_user_preferences` filters on
`opted_in = 1`), and the reminder path refuses delivery for an opted-out
user no matter what the reminder or the delivery channel would do: the only
effect is the opted-out rejection (the reminder is cancelled and saved,
nothing is delivered, and the outcome is independent of the channel). -/
theorem opted_out_always_rejected (db : AlertsDb) (p : UserPref) (s : Store)
    (r : Reminder) (u : User) (now : Nat) (b1 b2 b3 b4 : Bool)
    (hp : p.optedIn = false)
    (hu : alookup s.users r.userId = Option.some u)
    (ho : u.optOut = true) :
    p ∉ getUserPreferences db ∧
    (∀ q ∈ getUserPreferences db, q.optedIn = true) ∧
    sendReminder s r now b1 b2 =
      ({ s with reminders := aupdate s.reminders r.reminderId (cancelledVersion r) }, false) ∧
    (sendReminder s r now b1 b2).2 = false ∧
    sendReminder s r now b1 b2 = sendReminder s r now b3 b4 := by
  refine ⟨?_, ?_, sendReminder_optOut s r u now b1 b2 hu ho, ?_, ?_⟩
  · intro hmem
    have := (List.mem_filter.mp hmem).2
    rw [hp] at this
    cases this
  · intro q hq
    exact (List.mem_filter.mp hq).2
  · rw [sendReminder_optOut s r u now b1 b2 hu ho]
  · rw [sendReminder_optOut s r u now b1 b2 hu ho,
      sendReminder_optOut s r u now b3 b4 hu ho]

def c3Pref : UserPref :=
  { userId := "u3", phoneNumber := "p", optedIn := false,
    notifyMethod := NotifyMethod.sms, maxAlertsPerDay := 5,
    quietHoursStart := Option.none, quietHoursEnd := Option.none }

def c3Db : AlertsDb := { prefs := [c3Pref], alerts := [], dailyCounts := [] }

def c3User : User :=
  { userId := "u3", phoneNumber := "p", timezone := "UTC", optOut := true, createdAt := 0 }

def c3Reminder : Reminder :=
  { reminderId := "r3", userId := "u3", message := "m", scheduledTime := 10,
    status := ReminderStatus.pending, recurrence := RecurrenceType.none,
    createdAt := 0, sentAt := Option.none, nextOccurrence := Option.none }

def c3Store : Store := { users := [("u3", c3User)], reminders := [("r3", c3Reminder)] }

/-- Witness for C3 at a concrete opted-out recipient: excluded from the
outbound cycle, and the reminder path rejects without delivering. -/
theorem opted_out_always_rejected_witness :
    c3Pref ∉ getUserPreferences c3Db ∧
    (sendReminder c3Store c3Reminder 100 true true).2 = false := by
  have h := opted_out_always_rejected c3Db c3Pref c3Store c3Reminder c3User 100
    true true false false rfl (by decide) rfl
  exact ⟨h.1, h.2.2.2.1⟩

theorem cancelledVersion_idem (r : Reminder) :
    cancelledVersion (cancelledVersion r) = cancelledVersion r := rfl

theorem cancelledVersion_eq_self (r : Reminder)
    (hc : r.status = ReminderStatus.cancelled) : cancelledVersion r = r := by
  cases r
  simp_all [cancelledVersion]

def c6SentReminder : Reminder :=
  { reminderId := "s1", userId := "u6", message := "m", scheduledTime := 10,
    status := ReminderStatus.sent, recurrence := RecurrenceType.none,
    createdAt := 0, sentAt := Option.some 10, nextOccurrence := Option.none }

def c6SentStore : Store := { users := [], reminders := [("s1", c6SentReminder)] }

/-- C6 counterexample: cancelling an already-sent schedule is not a no-op —
`cancel_reminder` unconditionally overwrites the status, so a sent reminder
becomes cancelled and the store changes. -/
theorem cancel_sent_not_noop :
    cancelReminder c6SentStore "s1" ≠ c6SentStore ∧
    (alookup c6SentStore.reminders "s1").map Reminder.status
      = Option.some ReminderStatus.sent ∧
    (alookup (cancelReminder c6SentStore "s1").reminders "s1").map Reminder.status
      = Option.some ReminderStatus.cancelled := by
  refine ⟨by decide, by decide, by decide⟩

/-- C6 (amended): `cancel_reminder` is idempotent — a second cancel of the
same id reproduces the same end state — and cancelling an unknown or an
already-cancelled schedule is a no-op and never an error; but cancelling a
schedule in any other status (in particular an already-sent one) sets its
status to cancelled rather than leaving it unchanged. -/
theorem cancel_idempotent (s : Store) (id : String) :
    cancelReminder (cancelReminder s id) id = cancelReminder s id ∧
    (alookup s.reminders id = Option.none → cancelReminder s id = s) ∧
    (∀ r : Reminder, alookup s.reminders id = Option.some r →
      r.status = ReminderStatus.cancelled → cancelReminder s id = s) ∧
    (∀ r : Reminder, alookup s.reminders id = Option.some r →
      alookup (cancelReminder s id).reminders id = Option.some (cancelledVersion r)) := by
  refine ⟨?_, ?_, ?_, ?_⟩
  · cases hl : alookup s.reminders id with
    | none => simp [cancelReminder, hl]
    | some r =>
      have h1 : alookup (aupdate s.reminders id (cancelledVersion r)) id
          = Option.some (cancelledVersion r) := alookup_aupdate_self _ _ _
      simp [cancelReminder, hl, h1, cancelledVersion_idem, aupdate_aupdate_same]
  · intro h
    simp [cancelReminder, h]
  · intro r hl hc
    have hr := cancelledVersion_eq_self r hc
    simp [cancelReminder, hl, hr, aupdate_of_alookup_eq s.reminders id r hl]
  · intro r hl
    simp [cancelReminder, hl, alookup_aupdate_self]

def c6CancReminder : Reminder :=
  { reminderId := "c1", userId := "u6", message := "m", scheduledTime := 10,
    status := ReminderStatus.cancelled, recurrence := RecurrenceType.none,
    createdAt := 0, sentAt := Option.none, nextOccurrence := Option.none }

def c6CancStore : Store := { users := [], reminders := [("c1", c6CancReminder)] }

/-- Witness for the amended C6: cancelling twice equals cancelling once, and
cancelling an already-cancelled schedule leaves the concrete store as it
was. -/
theorem cancel_idempotent_witness :
    cancelReminder (cancelReminder c6CancStore "c1") "c1" = cancelReminder c6CancStore "c1" ∧
    cancelReminder c6CancStore "c1" = c6CancStore := by
  have h := cancel_idempotent c6CancStore "c1"
  exact ⟨h.1, h.2.2.1 c6CancReminder (by decide) rfl⟩

def c9Reminder : Reminder :=
  { reminderId := "g1", userId := "ghost", message := "m", scheduledTime := 50,
    status := ReminderStatus.pending, recurrence := RecurrenceType.none,
    createdAt := 0, sentAt := Option.none, nextOccurrence := Option.none }

def c9Store : Store := { users := [], reminders := [("g1", c9Reminder)] }

/-- C9 counterexample: a due schedule whose recipient is missing from the
store is NOT marked failed — `send_reminder` returns early leaving the
store untouched, the schedule stays pending, and it is still picked up as
due by the next cycle's pending query (it is retried). -/
theorem unknown_recipient_not_failed :
    sendReminder c9Store c9Reminder 100 true true = (c9Store, false) ∧
    (alookup (sendReminder c9Store c9Reminder 100 true true).1.reminders "g1").map Reminder.status
      = Option.some ReminderStatus.pending ∧
    c9Reminder ∈ getPendingReminders (sendReminder c9Store c9Reminder 100 true true).1 100 := by
  refine ⟨by decide, by decide, by decide⟩

/-- C9 (amended): processing a due schedule whose recipient id is not in
the store leaves the store completely unchanged and reports failure: the
schedule is not marked failed, stays pending, and is retried (re-selected
by the pending query) in later cycles. -/
theorem unknown_recipient_behavior (s : Store) (r : Reminder) (now : Nat)
    (b1 b2 : Bool)
    (hu : alookup s.users r.userId = Option.none) :
    sendReminder s r now b1 b2 = (s, false) ∧
    (r ∈ getPendingReminders s now →
      r ∈ getPendingReminders (sendReminder s r now b1 b2).1 now) := by
  have h : sendReminder s r now b1 b2 = (s, false) := by simp [sendReminder, hu]
  refine ⟨h, ?_⟩
  intro hm
  rw [h]
  exact hm

/-- Witness for the amended C9 at the concrete missing-recipient store. -/
theorem unknown_recipient_behavior_witness :
    sendReminder c9Store c9Reminder 100 true true = (c9Store, false) ∧
    c9Reminder ∈ getPendingReminders (sendReminder c9Store c9Reminder 100 true true).1 100 := by
  have h := unknown_recipient_behavior c9Store c9Reminder 100 true true rfl
  exact ⟨h.1, h.2 (by decide)⟩

/-- C7: on successful delivery of a recurring schedule, exactly one new
schedule is created under the timestamp-derived id, carrying the same
message, recipient and recurrence, with target equal to the original's
next-occurrence; the original is saved back in status sent, no other entry
changes, the sent original survives any number of later cycle steps
unchanged (it is never mutated back to pending), and a sent reminder is
never in any cycle's pending selection. -/
theorem recurring_delivery_creates_next (s : Store) (r : Reminder) (u : User)
    (now t : Nat) (waOk smsOk : Bool)
    (hu : alookup s.users r.userId = Option.some u)
    (ho : u.optOut = false)
    (hs : (waOk || smsOk) = true)
    (hrec : r.recurrence ≠ RecurrenceType.none)
    (hnext : r.nextOccurrence = Option.some t)
    (hfresh : alookup s.reminders (derivedId r now) = Option.none) :
    (sendReminder s r now waOk smsOk).2 = true ∧
    alookup (sendReminder s r now waOk smsOk).1.reminders (derivedId r now)
      = Option.some (recurringNext r now) ∧
    (recurringNext r now).reminderId = derivedId r now ∧
    (recurringNext r now).userId = r.userId ∧
    (recurringNext r now).message = r.message ∧
    (recurringNext r now).recurrence = r.recurrence ∧
    (recurringNext r now).scheduledTime = t ∧
    (recurringNext r now).status = ReminderStatus.pending ∧
    alookup (sendReminder s r now waOk smsOk).1.reminders r.reminderId
      = Option.some (sentVersion r now) ∧
    (sentVersion r now).status = ReminderStatus.sent ∧
    (∀ j, j ≠ r.reminderId → j ≠ derivedId r now →
      alookup (sendReminder s r now waOk smsOk).1.reminders j = alookup s.reminders j) ∧
    (∀ s2, Relation.ReflTransGen CycleStep (sendReminder s r now waOk smsOk).1 s2 →
      alookup s2.reminders r.reminderId = Option.some (sentVersion r now)) ∧
    (∀ st : Store, ∀ now2 : Nat, sentVersion r now ∉ getPendingReminders st now2) := by
  have heq := sendReminder_success_recurring s r u now waOk smsOk hu ho hs hrec
  have hne := derivedId_ne r now
  have hlookN : alookup (sendReminder s r now waOk smsOk).1.reminders (derivedId r now)
      = Option.some (recurringNext r now) := by
    rw [heq]
    have h1 := alookup_aupdate_ne
      (aupdate s.reminders (derivedId r now) (recurringNext r now))
      r.reminderId (derivedId r now) (sentVersion r now) hne
    simp [recurringStore, h1, alookup_aupdate_self]
  have hlookO : alookup (sendReminder s r now waOk smsOk).1.reminders r.reminderId
      = Option.some (sentVersion r now) := by
    rw [heq]
    simp [recurringStore, alookup_aupdate_self]
  refine ⟨by rw [heq], hlookN, ?_, ?_, ?_, ?_, ?_, ?_, hlookO, rfl, ?_, ?_, ?_⟩
  · simp [recurringNext, mkReminder_reminderId]
  · simp [recurringNext, mkReminder_userId]
  · simp [recurringNext, mkReminder_message]
  · simp [recurringNext, mkReminder_recurrence]
  · simp [recurringNext, mkReminder_scheduledTime, hnext]
  · simp [recurringNext, mkReminder_status]
  · intro j hj1 hj2
    rw [heq]
    simp [recurringStore, alookup_aupdate_ne _ _ _ _ hj1, alookup_aupdate_ne _ _ _ _ hj2]
  · intro s2 hsteps
    exact alookup_preserved_cycleSteps _ s2 r.reminderId (sentVersion r now) hlookO
      (by simp [sentVersion]) hsteps
  · intro st now2
    exact not_mem_pending_of_status st now2 _ (by simp [sentVersion])

def c7User : User :=
  { userId := "u7", phoneNumber := "p", timezone := "UTC", optOut := false, createdAt := 0 }

def c7Reminder : Reminder := mkReminder "d1" "u7" "m" 100 RecurrenceType.daily 0

def c7Store : Store :=
  { users := [("u7", c7User)], reminders := [("d1", c7Reminder)] }

/-- Witness for C7 at a concrete daily reminder delivered at second 200:
the follow-up lands under the derived id with the next-occurrence target,
and the original is stored marked sent. -/
theorem recurring_delivery_creates_next_witness :
    (sendReminder c7Store c7Reminder 200 true false).2 = true ∧
    alookup (sendReminder c7Store c7Reminder 200 true false).1.reminders (derivedId c7Reminder 200)
      = Option.some (recurringNext c7Reminder 200) ∧
    (recurringNext c7Reminder 200).scheduledTime = 86500 ∧
    alookup (sendReminder c7Store c7Reminder 200 true false).1.reminders c7Reminder.reminderId
      = Option.some (sentVersion c7Reminder 200) := by
  have h := recurring_delivery_creates_next c7Store c7Reminder c7User 200 86500 true false
    (by decide) rfl rfl (by decide) (by decide) (by decide)
  exact ⟨h.1, h.2.1, h.2.2.2.2.2.2.1, h.2.2.2.2.2.2.2.2.1⟩

/-- C8: the recurrence contract — daily adds one day to the target, weekly
seven days, monthly a fixed thirty days, and a non-recurring schedule has
no next occurrence. -/
theorem compute_next_occurrence_spec (r : Reminder) :
    (r.recurrence = RecurrenceType.daily →
      r.calculateNextOccurrence = Option.some (r.scheduledTime + day)) ∧
    (r.recurrence = RecurrenceType.weekly →
      r.calculateNextOccurrence = Option.some (r.scheduledTime + 7 * day)) ∧
    (r.recurrence = RecurrenceType.monthly →
      r.calculateNextOccurrence = Option.some (r.scheduledTime + 30 * day)) ∧
    (r.recurrence = RecurrenceType.none →
      r.calculateNextOccurrence = Option.none) := by
  refine ⟨?_, ?_, ?_, ?_⟩ <;> intro h <;> simp [Reminder.calculateNextOccurrence, h]

def c8Daily : Reminder := mkReminder "a" "u" "m" 100 RecurrenceType.daily 0

def c8Weekly : Reminder := mkReminder "a" "u" "m" 100 RecurrenceType.weekly 0

def c8Monthly : Reminder := mkReminder "a" "u" "m" 100 RecurrenceType.monthly 0

def c8NoRepeat : Reminder := mkReminder "a" "u" "m" 100 RecurrenceType.none 0

/-- Witness for C8 on four concrete reminders, one per recurrence value. -/
theorem compute_next_occurrence_spec_witness :
    c8Daily.calculateNextOccurrence = Option.some (c8Daily.scheduledTime + day) ∧
    c8Weekly.calculateNextOccurrence = Option.some (c8Weekly.scheduledTime + 7 * day) ∧
    c8Monthly.calculateNextOccurrence = Option.some (c8Monthly.scheduledTime + 30 * day) ∧
    c8NoRepeat.calculateNextOccurrence = Option.none := by
  exact ⟨(compute_next_occurrence_spec c8Daily).1 (by decide),
    (compute_next_occurrence_spec c8Weekly).2.1 (by decide),
    (compute_next_occurrence_spec c8Monthly).2.2.1 (by decide),
    (compute_next_occurrence_spec c8NoRepeat).2.2.2 (by decide)⟩

/-- C10: when a cycle processes a due schedule of an opted-out recipient,
the schedule is cancelled and that cancellation is persisted; opting the
recipient back in afterwards does not touch the reminders, the cancelled
record survives any number of later cycle steps, and a cancelled reminder
is never in any cycle's pending selection — so the schedule is never
delivered. -/
theorem optout_cancel_persisted (s : Store) (r : Reminder) (u : User) (now : Nat)
    (b1 b2 : Bool)
    (hu : alookup s.users r.userId = Option.some u)
    (ho : u.optOut = true) :
    sendReminder s r now b1 b2 =
      ({ s with reminders := aupdate s.reminders r.reminderId (cancelledVersion r) }, false) ∧
    alookup (sendReminder s r now b1 b2).1.reminders r.reminderId
      = Option.some (cancelledVersion r) ∧
    (cancelledVersion r).status = ReminderStatus.cancelled ∧
    (optInUser (sendReminder s r now b1 b2).1 r.userId).reminders
      = (sendReminder s r now b1 b2).1.reminders ∧
    alookup (optInUser (sendReminder s r now b1 b2).1 r.userId).reminders r.reminderId
      = Option.some (cancelledVersion r) ∧
    (∀ s2, Relation.ReflTransGen CycleStep (optInUser (sendReminder s r now b1 b2).1 r.userId) s2 →
      alookup s2.reminders r.reminderId = Option.some (cancelledVersion r)) ∧
    (∀ st : Store, ∀ now2 : Nat, cancelledVersion r ∉ getPendingReminders st now2) := by
  have heq := sendReminder_optOut s r u now b1 b2 hu ho
  have hlook : alookup (sendReminder s r now b1 b2).1.reminders r.reminderId
      = Option.some (cancelledVersion r) := by
    rw [heq]
    exact alookup_aupdate_self _ _ _
  have hremEq := optInUser_reminders (sendReminder s r now b1 b2).1 r.userId
  have hlook2 : alookup (optInUser (sendReminder s r now b1 b2).1 r.userId).reminders r.reminderId
      = Option.some (cancelledVersion r) := by
    rw [hremEq]
    exact hlook
  refine ⟨heq, hlook, rfl, hremEq, hlook2, ?_, ?_⟩
  · intro s2 hsteps
    exact alookup_preserved_cycleSteps _ s2 r.reminderId (cancelledVersion r) hlook2
      (by simp [cancelledVersion]) hsteps
  · intro st now2
    exact not_mem_pending_of_status st now2 _ (by simp [cancelledVersion])

def c10User : User :=
  { userId := "u10", phoneNumber := "p", timezone := "UTC", optOut := true, createdAt := 0 }

def c10Reminder : Reminder :=
  { reminderId := "r10", userId := "u10", message := "m", scheduledTime := 10,
    status := ReminderStatus.pending, recurrence := RecurrenceType.none,
    createdAt := 0, sentAt := Option.none, nextOccurrence := Option.none }

def c10Store : Store :=
  { users := [("u10", c10User)], reminders := [("r10", c10Reminder)] }

/-- Witness for C10 at a concrete opted-out recipient: the cancellation is
persisted, and it is still there after opting the recipient back in. -/
theorem optout_cancel_persisted_witness :
    alookup (sendReminder c10Store c10Reminder 100 true true).1.reminders "r10"
      = Option.some (cancelledVersion c10Reminder) ∧
    alookup (optInUser (sendReminder c10Store c10Reminder 100 true true).1 "u10").reminders "r10"
      = Option.some (cancelledVersion c10Reminder) := by
  have h := optout_cancel_persisted c10Store c10Reminder c10User 100 true true (by decide) rfl
  exact ⟨h.2.1, h.2.2.2.2.1⟩
